import Mathlib

/-!
# Verification of the az-kubelogin credential-provider adapter

Shallow embedding of `src/build/az-kubelogin.py`: the Token Acquirer
(`get_azure_token`), the Credential Translator (`convert_to_exec_credential`)
and the Invocation Orchestrator (`main`), together with theorems checking the
specification's claims about them.

Modelling conventions:
* Python dicts of string fields are association lists (`AzDict`); `dict.get`
  with a default is `dictGet` (first-match lookup).
* The subprocess boundary and the JSON parser are injected as oracle
  functions, following the spec's own design note ("abstract the external
  identity command behind a narrow interface"); likewise the process-ambient
  local UTC offset is an injected parameter (in minutes).
* `datetime.strptime(s, "%Y-%m-%d %H:%M:%S.%f")` is modelled after CPython's
  `_strptime`: the format is compiled to the regex
  `\d\d\d\d - (1[0-2]|0[1-9]|[1-9]) - (3[01]|[12]\d|0[1-9]|[1-9]) \s+
   (2[0-3]|[0-1]\d|\d) : ([0-5]\d|\d) : (6[0-1]|[0-5]\d|\d) . [0-9]\x7b1,6\x7d`,
  anchored on both sides, after which the `datetime` constructor validates
  year ≥ 1, day against the month length, and second ≤ 59.  We restrict to
  ASCII digits and ASCII whitespace (Python's `\d`/`\s` are Unicode-aware;
  the ASCII fragment is what the identity command emits).
* `astimezone(timezone.utc)` subtracts the attached offset with exact
  calendar arithmetic and raises `OverflowError` when the result leaves the
  supported range 0001-01-01 .. 9999-12-31; both behaviours are modelled.
-/

namespace AzKubelogin

/-! ## Character helpers (ASCII fragment of Python regex classes) -/

/-- ASCII decimal digit, the `[0-9]` (and ASCII part of the Unicode-aware
digit class) used by the compiled strptime regex. -/
def isDig (c : Char) : Bool := 48 ≤ c.toNat && c.toNat ≤ 57

/-- Numeric value of an ASCII digit. -/
def digitVal (c : Char) : Nat := c.toNat - 48

/-- ASCII whitespace, the ASCII part of the regex whitespace class that the
literal space of the format is compiled to (as a one-or-more run). -/
def isSpaceCh (c : Char) : Bool :=
  c.toNat = 32 || c.toNat = 9 || c.toNat = 10 || c.toNat = 13 ||
  c.toNat = 11 || c.toNat = 12

/-! ## The strptime model -/

/-- A timezone-naive `datetime` value: year, month, day, hour, minute,
second, microsecond. -/
structure NaiveDT where
  y : Nat
  m : Nat
  d : Nat
  h : Nat
  mi : Nat
  s : Nat
  us : Nat
deriving DecidableEq, Repr

/-- `%Y`: exactly four digit characters. -/
def parseYear4 : List Char → Option (Nat × List Char)
  | a :: b :: c :: d :: rest =>
    if isDig a && isDig b && isDig c && isDig d then
      some (1000 * digitVal a + 100 * digitVal b + 10 * digitVal c + digitVal d, rest)
    else none
  | _ => none

/-- A two-digits-preferred numeric field, as the ordered regex alternations
for `%m`, `%d`, `%H`, `%M`, `%S` behave: if two digits follow, their value
must lie in `min2 .. max2` (otherwise the one-digit fallback is cut off by
the literal separator that follows, which is never a digit); a single digit
must be at least `min1`. -/
def parseField (min2 max2 min1 : Nat) : List Char → Option (Nat × List Char)
  | [] => none
  | c1 :: rest1 =>
    if isDig c1 then
      match rest1 with
      | c2 :: rest2 =>
        if isDig c2 then
          let v := 10 * digitVal c1 + digitVal c2
          if min2 ≤ v ∧ v ≤ max2 then some (v, rest2) else none
        else
          if min1 ≤ digitVal c1 then some (digitVal c1, rest1) else none
      | [] =>
        if min1 ≤ digitVal c1 then some (digitVal c1, rest1) else none
    else none

/-- A literal character of the format. -/
def lit (c : Char) : List Char → Option (List Char)
  | x :: rest => if x = c then some rest else none
  | [] => none

/-- The whitespace run the literal space is compiled to (`\s+`, greedy). -/
def spaces1 : List Char → Option (List Char)
  | x :: rest => if isSpaceCh x then some (rest.dropWhile isSpaceCh) else none
  | [] => none

/-- Value of a digit run read left to right. -/
def fracVal (cs : List Char) : Nat := cs.foldl (fun a c => 10 * a + digitVal c) 0

/-- `%f` at the end of the format: one to six digits, right-padded with
zeros to microseconds; the regex match must also consume the whole string
(`unconverted data remains` otherwise). -/
def parseFrac (cs : List Char) : Option Nat :=
  if cs ≠ [] ∧ cs.length ≤ 6 ∧ cs.all isDig then
    some (fracVal cs * 10 ^ (6 - cs.length))
  else none

/-- Whether `y` is a Gregorian leap year (Python `calendar.isleap`). -/
def isLeap (y : Nat) : Bool := y % 4 = 0 && (y % 100 ≠ 0 || y % 400 = 0)

/-- Length of month `m` of year `y` (months 1..12). -/
def daysInMonth (y m : Nat) : Nat :=
  if m = 2 then (if isLeap y then 29 else 28)
  else if m = 4 ∨ m = 6 ∨ m = 9 ∨ m = 11 then 30
  else 31

/-- `datetime.strptime(s, "%Y-%m-%d %H:%M:%S.%f")`, returning `none` where
Python raises `ValueError` (regex mismatch, unconverted trailing data, or
constructor validation: year ≥ 1, day within the month, second ≤ 59 even
though the regex itself admits leap seconds 60 and 61). -/
def strptime_naive (str : String) : Option NaiveDT :=
  match parseYear4 str.data with
  | none => none
  | some (y, cs) =>
  match lit '-' cs with
  | none => none
  | some cs =>
  match parseField 1 12 1 cs with
  | none => none
  | some (m, cs) =>
  match lit '-' cs with
  | none => none
  | some cs =>
  match parseField 1 31 1 cs with
  | none => none
  | some (d, cs) =>
  match spaces1 cs with
  | none => none
  | some cs =>
  match parseField 0 23 0 cs with
  | none => none
  | some (h, cs) =>
  match lit ':' cs with
  | none => none
  | some cs =>
  match parseField 0 59 0 cs with
  | none => none
  | some (mi, cs) =>
  match lit ':' cs with
  | none => none
  | some cs =>
  match parseField 0 61 0 cs with
  | none => none
  | some (s, cs) =>
  match lit '.' cs with
  | none => none
  | some cs =>
  match parseFrac cs with
  | none => none
  | some us =>
    if 1 ≤ y ∧ d ≤ daysInMonth y m ∧ s ≤ 59 then
      some ⟨y, m, d, h, mi, s, us⟩
    else none

/-! ## Calendar arithmetic (`datetime` subtraction and `astimezone`) -/

/-- Days in years `1 .. y-1` (the proleptic-Gregorian ordinal of Jan 1 of
year `y`, counted from 0001-01-01 = 0). -/
def daysBeforeYear (y : Nat) : Nat :=
  365 * (y - 1) + (y - 1) / 4 - (y - 1) / 100 + (y - 1) / 400

/-- Days in the months of year `y` strictly before month `m`. -/
def daysBeforeMonth (y m : Nat) : Nat :=
  (List.range (m - 1)).foldl (fun a i => a + daysInMonth y (i + 1)) 0

/-- Day number of a date, counted from 0001-01-01 = 0. -/
def toDayNumber (dt : NaiveDT) : Nat :=
  daysBeforeYear dt.y + daysBeforeMonth dt.y dt.m + (dt.d - 1)

/-- Seconds since 0001-01-01 00:00:00 (microseconds kept aside). -/
def toSeconds (dt : NaiveDT) : Nat :=
  toDayNumber dt * 86400 + dt.h * 3600 + dt.mi * 60 + dt.s

/-- Total days in the supported year range 1..9999; one past the last
representable day number. -/
def MAX_ORDINAL : Nat := daysBeforeYear 10000

/-- Civil date from a day number (0 = 0001-01-01), by the standard era
decomposition of the Gregorian calendar. -/
def civilFromDays (n : Nat) : Nat × Nat × Nat :=
  let z := n + 306
  let era := z / 146097
  let doe := z % 146097
  let yoe := ((doe - doe / 1460) + doe / 36524 - doe / 146096) / 365
  let y := yoe + era * 400
  let doy := doe - (365 * yoe + yoe / 4 - yoe / 100)
  let mp := (5 * doy + 2) / 153
  let d := doy - (153 * mp + 2) / 5 + 1
  let m := if mp < 10 then mp + 3 else mp - 9
  if m ≤ 2 then (y + 1, m, d) else (y, m, d)

/-- Rebuild a `datetime` from seconds since 0001-01-01 00:00:00 plus
microseconds. -/
def fromSeconds (t : Nat) (us : Nat) : NaiveDT :=
  let day := t / 86400
  let sod := t % 86400
  let ymd := civilFromDays day
  ⟨ymd.1, ymd.2.1, ymd.2.2, sod / 3600, sod % 3600 / 60, sod % 60, us⟩

/-- `dt.replace(tzinfo=local_tz).astimezone(timezone.utc)` for a local zone
at `offMin` minutes east of UTC: subtract the offset; `none` models the
`OverflowError` raised when the result leaves the range
0001-01-01 00:00:00 .. 9999-12-31 23:59:59.999999. -/
def shiftToUTC (dt : NaiveDT) (offMin : Int) : Option NaiveDT :=
  let t : Int := (toSeconds dt : Int) - offMin * 60
  if 0 ≤ t ∧ t < (MAX_ORDINAL : Int) * 86400 then
    some (fromSeconds t.toNat dt.us)
  else none

/-! ## Formatting (`dt.strftime("%Y-%m-%dT%H:%M:%SZ")`) -/

/-- Two-digit zero-padded decimal. -/
def pad2 (n : Nat) : String := if n < 10 then "0" ++ toString n else toString n

/-- Four-digit zero-padded decimal (the documented rendering of `%Y`). -/
def pad4 (n : Nat) : String :=
  if n < 10 then "000" ++ toString n
  else if n < 100 then "00" ++ toString n
  else if n < 1000 then "0" ++ toString n
  else toString n

/-- `dt.strftime("%Y-%m-%dT%H:%M:%SZ")`: second precision, so the
microsecond field is dropped — truncation, never rounding. -/
def strftime_iso_z (dt : NaiveDT) : String :=
  pad4 dt.y ++ "-" ++ pad2 dt.m ++ "-" ++ pad2 dt.d ++ "T" ++
  pad2 dt.h ++ ":" ++ pad2 dt.mi ++ ":" ++ pad2 dt.s ++ "Z"

/-! ## The token dictionary and the Credential Translator -/

/-- The decoded identity-command response: a dictionary of string fields
(the fields the claims concern are strings; unconsumed fields are carried
alongside). -/
abbrev AzDict := List (String × String)

/-- `d.get(k, dflt)`: value of the first binding of `k`, or the default. -/
def dictGet (d : AzDict) (k dflt : String) : String :=
  match List.find? (fun p => p.1 == k) d with
  | some p => p.2
  | none => dflt

/-- The `spec` sub-object of an ExecCredential. -/
structure CredSpec where
  interactive : Bool
deriving DecidableEq, Repr

/-- The `status` sub-object of an ExecCredential. -/
structure CredStatus where
  expirationTimestamp : String
  token : String
deriving DecidableEq, Repr

/-- The Kubernetes ExecCredential object built by the translator. -/
structure ExecCredential where
  kind : String
  apiVersion : String
  spec : CredSpec
  status : CredStatus
deriving DecidableEq, Repr

/-- Exceptions the translator can raise: `ValueError` from `strptime` or
the `datetime` constructor (the spec's `TimestampFormatError`; Python's
message embeds the offending data, carried here as the payload), and
`OverflowError` from `astimezone` when the shifted date leaves the
supported range. -/
inductive ConvertError where
  | TimestampFormatError (time_data : String)
  | DateOutOfRangeError
deriving DecidableEq, Repr

/-- `str(e)` for the translator's exceptions, as printed by the
orchestrator's diagnostic (Python quotes the time data; the quoting is
elided here). -/
def convertErrorMsg : ConvertError → String
  | .TimestampFormatError s =>
      "time data " ++ s ++ " does not match format %Y-%m-%d %H:%M:%S.%f"
  | .DateOutOfRangeError => "date value out of range"

/-- `convert_to_exec_credential(az_token)` at ambient local offset `offMin`
minutes east of UTC: extract `accessToken` and `expiresOn` with empty-string
defaults; a truthy (non-empty) `expiresOn` is parsed, shifted to UTC and
formatted, otherwise the expiration is the empty string; the envelope
literals and `interactive: False` are fixed. -/
def convert_to_exec_credential (offMin : Int) (az_token : AzDict) :
    Except ConvertError ExecCredential :=
  let access_token := dictGet az_token "accessToken" ""
  let expires_on := dictGet az_token "expiresOn" ""
  if expires_on ≠ "" then
    match strptime_naive expires_on with
    | none => .error (.TimestampFormatError expires_on)
    | some dt =>
      match shiftToUTC dt offMin with
      | none => .error .DateOutOfRangeError
      | some u =>
        .ok ⟨"ExecCredential", "client.authentication.k8s.io/v1beta1",
             ⟨false⟩, ⟨strftime_iso_z u, access_token⟩⟩
  else
    .ok ⟨"ExecCredential", "client.authentication.k8s.io/v1beta1",
         ⟨false⟩, ⟨"", access_token⟩⟩

/-! ## JSON serialization (`json.dumps(..., indent=2)`) -/

/-- Lowercase hex digit. -/
def hexDigit (n : Nat) : String :=
  if n = 0 then "0" else if n = 1 then "1" else if n = 2 then "2"
  else if n = 3 then "3" else if n = 4 then "4" else if n = 5 then "5"
  else if n = 6 then "6" else if n = 7 then "7" else if n = 8 then "8"
  else if n = 9 then "9" else if n = 10 then "a" else if n = 11 then "b"
  else if n = 12 then "c" else if n = 13 then "d" else if n = 14 then "e"
  else "f"

/-- Four lowercase hex digits. -/
def hex4 (n : Nat) : String :=
  hexDigit (n / 4096 % 16) ++ hexDigit (n / 256 % 16) ++
  hexDigit (n / 16 % 16) ++ hexDigit (n % 16)

/-- One character of a JSON string under `ensure_ascii=True`: printable
ASCII is literal, the short escapes are used where they exist, everything
else becomes a backslash-u escape (a surrogate pair above U+FFFF). -/
def jsonEscapeChar (c : Char) : String :=
  if c = '"' then "\\\""
  else if c = '\\' then "\\\\"
  else if c.toNat = 8 then "\\b"
  else if c.toNat = 9 then "\\t"
  else if c.toNat = 10 then "\\n"
  else if c.toNat = 12 then "\\f"
  else if c.toNat = 13 then "\\r"
  else if 32 ≤ c.toNat ∧ c.toNat ≤ 126 then String.singleton c
  else if c.toNat < 65536 then "\\u" ++ hex4 c.toNat
  else
    "\\u" ++ hex4 (55296 + (c.toNat - 65536) / 1024) ++
    "\\u" ++ hex4 (56320 + (c.toNat - 65536) % 1024)

/-- A JSON string literal. -/
def jsonString (s : String) : String :=
  "\"" ++ s.data.foldl (fun a c => a ++ jsonEscapeChar c) "" ++ "\""

/-- `json.dumps(exec_credential, indent=2)` for the fixed shape the
translator builds, keys in insertion order. -/
def json_dumps_exec_credential (c : ExecCredential) : String :=
  "\x7b\n  \"kind\": " ++ jsonString c.kind ++
  ",\n  \"apiVersion\": " ++ jsonString c.apiVersion ++
  ",\n  \"spec\": \x7b\n    \"interactive\": " ++
  (if c.spec.interactive then "true" else "false") ++
  "\n  \x7d,\n  \"status\": \x7b\n    \"expirationTimestamp\": " ++
  jsonString c.status.expirationTimestamp ++
  ",\n    \"token\": " ++ jsonString c.status.token ++
  "\n  \x7d\n\x7d"

/-! ## The Token Acquirer -/

/-- Outcome of spawning the identity command: either it ran to completion
with an exit status and captured streams, or spawning itself failed
(e.g. `FileNotFoundError` when the executable does not exist). -/
inductive RunOutcome where
  | ran (returncode : Int) (stdout stderr : String)
  | spawnFail (msg : String)

/-- The exceptions `get_azure_token` can propagate:
`subprocess.CalledProcessError` (carrying the captured stderr),
`json.JSONDecodeError` (carrying the parse-error message), or an OS-level
spawn failure. -/
inductive AcqError where
  | calledProcessError (stderr : String)
  | jsonDecodeError (msg : String)
  | osError (msg : String)
deriving DecidableEq, Repr

/-- `os.environ.get("AZ_CLI_PATH", "az")`: the environment override, or the
bare default command name resolved on the search path. -/
def resolve_az_cmd (env_az : Option String) : String :=
  match env_az with
  | some p => p
  | none => "az"

/-- The argument vector handed to `subprocess.run`: the resolved command,
the fixed subcommand, the scope built from the server id, and the resource
pair only when `resource` is truthy (non-`None` and non-empty). -/
def build_az_cmd (env_az : Option String) (server_id : String)
    (resource : Option String) : List String :=
  let az_cmd := resolve_az_cmd env_az
  let scope := server_id ++ "/.default"
  let cmd := [az_cmd, "account", "get-access-token", "--scope", scope]
  match resource with
  | some r => if r ≠ "" then cmd ++ ["--resource", r] else cmd
  | none => cmd

/-- `get_azure_token(server_id, resource)` against a subprocess oracle
`run` and a JSON-decoding oracle `parseJson` (a decoded response that is a
JSON object of strings; any decode failure carries its message).  Returns
the propagated outcome together with the stderr lines the function itself
prints before re-raising. -/
def get_azure_token (env_az : Option String) (server_id : String)
    (resource : Option String) (run : List String → RunOutcome)
    (parseJson : String → Except String AzDict) :
    Except AcqError AzDict × List String :=
  match run (build_az_cmd env_az server_id resource) with
  | .spawnFail msg => (.error (.osError msg), [])
  | .ran rc out err =>
    if rc ≠ 0 then
      (.error (.calledProcessError err), ["Error running az command: " ++ err])
    else
      match parseJson out with
      | .error m =>
        (.error (.jsonDecodeError m), ["Error parsing az command output: " ++ m])
      | .ok tok => (.ok tok, [])

/-! ## The Invocation Orchestrator -/

/-- Observable outcome of one invocation: the process exit status and the
lines written to the two standard streams. -/
structure ProcResult where
  exitCode : Nat
  stdoutLines : List String
  stderrLines : List String
deriving DecidableEq, Repr

/-- The default of the `--server-id` flag. -/
def DEFAULT_SERVER_ID : String := "6dae42f8-4368-4678-94ff-3960e28e3630"

/-- The body of `main()` after argument parsing: acquire, translate, emit
the credential to stdout and exit 0; on `CalledProcessError` print the
re-authentication diagnostic and exit 1; on any other exception print
`Unexpected error: ...` and exit 1. -/
def main_run (env_az : Option String) (server_id : String)
    (resource : Option String) (offMin : Int)
    (run : List String → RunOutcome)
    (parseJson : String → Except String AzDict) : ProcResult :=
  match get_azure_token env_az server_id resource run parseJson with
  | (.ok tok, pre) =>
    match convert_to_exec_credential offMin tok with
    | .ok cred => ⟨0, [json_dumps_exec_credential cred], pre⟩
    | .error e => ⟨1, [], pre ++ ["Unexpected error: " ++ convertErrorMsg e]⟩
  | (.error (.calledProcessError _), pre) =>
    ⟨1, [], pre ++ ["Failed to get access token from Azure CLI",
                    "Make sure you are logged in: az login"]⟩
  | (.error (.jsonDecodeError m), pre) =>
    ⟨1, [], pre ++ ["Unexpected error: " ++ m]⟩
  | (.error (.osError m), pre) =>
    ⟨1, [], pre ++ ["Unexpected error: " ++ m]⟩

/-! ## Spec-side definitions

The claims describe `expiresOn` values "in the format
`YYYY-MM-DD HH:MM:SS.ffffff`".  `strictFormatParse` reads that template
literally — exactly two digits per component, one space, exactly six
fractional digits — with the field validity the spec's "well-formed"
timestamps carry (real month, day within the month, hour/minute/second in
range, year at least 1).  It is compared against the code-derived
`strptime_naive` above. -/

/-- Exactly two digits with value in `lo .. hi`. -/
def parse2 (lo hi : Nat) : List Char → Option (Nat × List Char)
  | c1 :: c2 :: rest =>
    if isDig c1 && isDig c2 then
      let v := 10 * digitVal c1 + digitVal c2
      if lo ≤ v ∧ v ≤ hi then some (v, rest) else none
    else none
  | _ => none

/-- Exactly six digits, ending the string. -/
def parseFrac6 (cs : List Char) : Option Nat :=
  if cs.length = 6 ∧ cs.all isDig then some (fracVal cs) else none

/-- The literal `YYYY-MM-DD HH:MM:SS.ffffff` template of the specification,
with calendar-valid field values. -/
def strictFormatParse (str : String) : Option NaiveDT :=
  match parseYear4 str.data with
  | none => none
  | some (y, cs) =>
  match lit '-' cs with
  | none => none
  | some cs =>
  match parse2 1 12 cs with
  | none => none
  | some (m, cs) =>
  match lit '-' cs with
  | none => none
  | some cs =>
  match parse2 1 31 cs with
  | none => none
  | some (d, cs) =>
  match lit ' ' cs with
  | none => none
  | some cs =>
  match parse2 0 23 cs with
  | none => none
  | some (h, cs) =>
  match lit ':' cs with
  | none => none
  | some cs =>
  match parse2 0 59 cs with
  | none => none
  | some (mi, cs) =>
  match lit ':' cs with
  | none => none
  | some cs =>
  match parse2 0 59 cs with
  | none => none
  | some (s, cs) =>
  match lit '.' cs with
  | none => none
  | some cs =>
  match parseFrac6 cs with
  | none => none
  | some us =>
    if 1 ≤ y ∧ d ≤ daysInMonth y m then some ⟨y, m, d, h, mi, s, us⟩ else none

/-! ## Helper lemmas -/

theorem parse2_bounds {lo hi v : Nat} {cs rest : List Char}
    (h : parse2 lo hi cs = some (v, rest)) : lo ≤ v ∧ v ≤ hi := by
  match cs with
  | [] => simp [parse2] at h
  | [c] => simp [parse2] at h
  | c1 :: c2 :: t =>
    simp only [parse2] at h
    split at h
    · split at h
      · rename_i hrange
        cases h
        exact hrange
      · exact absurd h (by simp)
    · exact absurd h (by simp)

theorem parse2_shape {lo hi v : Nat} {cs rest : List Char}
    (h : parse2 lo hi cs = some (v, rest)) :
    ∃ c1 c2 t, cs = c1 :: c2 :: t ∧ isDig c1 = true := by
  match cs with
  | [] => simp [parse2] at h
  | [c] => simp [parse2] at h
  | c1 :: c2 :: t =>
    refine ⟨c1, c2, t, rfl, ?_⟩
    simp only [parse2] at h
    split at h
    · rename_i hdig
      exact (Bool.and_eq_true _ _ ▸ hdig).1
    · exact absurd h (by simp)

theorem parse2_toField {lo hi hi2 v : Nat} {cs rest : List Char}
    (h : parse2 lo hi cs = some (v, rest)) (hle : hi ≤ hi2) :
    parseField lo hi2 lo cs = some (v, rest) := by
  match cs with
  | [] => simp [parse2] at h
  | [c] => simp [parse2] at h
  | c1 :: c2 :: t =>
    simp only [parse2] at h
    split at h
    · rename_i hdig
      split at h
      · rename_i hrange
        cases h
        have hd := Bool.and_eq_true _ _ ▸ hdig
        simp only [parseField, hd.1, hd.2, if_true]
        rw [if_pos ⟨hrange.1, le_trans hrange.2 hle⟩]
      · exact absurd h (by simp)
    · exact absurd h (by simp)

theorem lit_shape {c : Char} {cs rest : List Char}
    (h : lit c cs = some rest) : cs = c :: rest := by
  match cs with
  | [] => simp [lit] at h
  | x :: t =>
    simp only [lit] at h
    split at h
    · rename_i hx
      cases h
      rw [hx]
    · exact absurd h (by simp)

theorem dig_not_space {c : Char} (h : isDig c = true) : isSpaceCh c = false := by
  simp only [isDig, Bool.and_eq_true, decide_eq_true_eq] at h
  simp only [isSpaceCh, Bool.or_eq_false_iff, decide_eq_false_iff_not]
  omega

theorem spaces1_of_parse2 {lo hi v : Nat} {cs rest : List Char}
    (h : parse2 lo hi cs = some (v, rest)) :
    spaces1 (' ' :: cs) = some cs := by
  obtain ⟨c1, c2, t, hcs, hd⟩ := parse2_shape h
  simp only [spaces1, show isSpaceCh ' ' = true from rfl, if_true, hcs,
    List.dropWhile_cons, dig_not_space hd, Bool.false_eq_true, if_false]

theorem parseFrac6_toFrac {v : Nat} {cs : List Char}
    (h : parseFrac6 cs = some v) : parseFrac cs = some v := by
  simp only [parseFrac6] at h
  split at h
  · rename_i hc
    cases h
    have hlen : cs.length = 6 := hc.1
    have hne : cs ≠ [] := by
      intro hnil
      rw [hnil] at hlen
      simp at hlen
    have hfr : parseFrac cs = some (fracVal cs * 10 ^ (6 - cs.length)) := by
      simp only [parseFrac]
      rw [if_pos ⟨hne, le_of_eq hlen, hc.2⟩]
    rw [hfr, hlen]
    norm_num
  · exact absurd h (by simp)

/-- Every string accepted by the spec's literal template is accepted by the
code's strptime with the same result. -/
theorem strict_imp_strptime {str : String} {dt : NaiveDT}
    (h : strictFormatParse str = some dt) : strptime_naive str = some dt := by
  unfold strictFormatParse at h
  split at h
  · exact absurd h (by simp)
  rename_i y cs0 hy
  split at h
  · exact absurd h (by simp)
  rename_i cs1 hl1
  split at h
  · exact absurd h (by simp)
  rename_i m cs2 hm
  split at h
  · exact absurd h (by simp)
  rename_i cs3 hl2
  split at h
  · exact absurd h (by simp)
  rename_i d cs4 hd
  split at h
  · exact absurd h (by simp)
  rename_i cs5 hsp
  split at h
  · exact absurd h (by simp)
  rename_i hh cs6 hhp
  split at h
  · exact absurd h (by simp)
  rename_i cs7 hl3
  split at h
  · exact absurd h (by simp)
  rename_i mi cs8 hmi
  split at h
  · exact absurd h (by simp)
  rename_i cs9 hl4
  split at h
  · exact absurd h (by simp)
  rename_i sec cs10 hs
  split at h
  · exact absurd h (by simp)
  rename_i cs11 hl5
  split at h
  · exact absurd h (by simp)
  rename_i us hf
  split at h
  · rename_i hcond
    cases h
    have hsp' : spaces1 cs4 = some cs5 := by
      rw [lit_shape hsp]
      exact spaces1_of_parse2 hhp
    have hsec := parse2_bounds hs
    simp only [strptime_naive, hy, hl1, parse2_toField hm (le_refl 12), hl2,
      parse2_toField hd (le_refl 31), hsp', parse2_toField hhp (le_refl 23),
      hl3, parse2_toField hmi (le_refl 59), hl4,
      parse2_toField hs (by omega : 59 ≤ 61), hl5, parseFrac6_toFrac hf]
    rw [if_pos ⟨hcond.1, hcond.2, hsec.2⟩]
  · exact absurd h (by simp)

/-- The literal template accepts only non-empty strings. -/
theorem strict_ne_empty {str : String} {dt : NaiveDT}
    (h : strictFormatParse str = some dt) : str ≠ "" := by
  intro hs
  rw [hs] at h
  exact Option.noConfusion ((show strictFormatParse "" = none from rfl) ▸ h)

/-- What the translator returns once the expiry string parsed: the shifted
timestamp decides between the credential and the overflow error. -/
theorem convert_eq_of_parse {tok : AzDict} {offMin : Int} {dt : NaiveDT}
    (hne : dictGet tok "expiresOn" "" ≠ "")
    (hp : strptime_naive (dictGet tok "expiresOn" "") = some dt) :
    convert_to_exec_credential offMin tok =
      match shiftToUTC dt offMin with
      | none => .error .DateOutOfRangeError
      | some u =>
        .ok ⟨"ExecCredential", "client.authentication.k8s.io/v1beta1",
             ⟨false⟩, ⟨strftime_iso_z u, dictGet tok "accessToken" ""⟩⟩ := by
  simp only [convert_to_exec_credential]
  rw [if_pos hne, hp]

/-! ## Claims -/

/-- Claim C1 (amended): for every token whose `expiresOn` is a non-empty
string in the literal format `YYYY-MM-DD HH:MM:SS.ffffff`, the translator
parses it as a naive local timestamp, attaches the ambient local UTC
offset, converts to UTC and formats the result as `YYYY-MM-DDTHH:MM:SSZ`
with the fractional seconds truncated — provided the UTC result stays in
the representable range (years 1–9999), the shift otherwise raising a
date-out-of-range error; in particular local `2025-10-22 11:11:02.000000`
at UTC+2 yields `2025-10-22T09:11:02Z` and at UTC+0 yields
`2025-10-22T11:11:02Z`. -/
theorem claim_C1 :
    (∀ (tok : AzDict) (offMin : Int) (dt u : NaiveDT),
        strictFormatParse (dictGet tok "expiresOn" "") = some dt →
        shiftToUTC dt offMin = some u →
        convert_to_exec_credential offMin tok =
          .ok ⟨"ExecCredential", "client.authentication.k8s.io/v1beta1",
               ⟨false⟩, ⟨strftime_iso_z u, dictGet tok "accessToken" ""⟩⟩) ∧
    (∀ (tok : AzDict) (offMin : Int) (dt : NaiveDT),
        strictFormatParse (dictGet tok "expiresOn" "") = some dt →
        shiftToUTC dt offMin = none →
        convert_to_exec_credential offMin tok = .error .DateOutOfRangeError) ∧
    convert_to_exec_credential 120 [("expiresOn", "2025-10-22 11:11:02.000000")] =
      .ok ⟨"ExecCredential", "client.authentication.k8s.io/v1beta1", ⟨false⟩,
           ⟨"2025-10-22T09:11:02Z", ""⟩⟩ ∧
    convert_to_exec_credential 0 [("expiresOn", "2025-10-22 11:11:02.000000")] =
      .ok ⟨"ExecCredential", "client.authentication.k8s.io/v1beta1", ⟨false⟩,
           ⟨"2025-10-22T11:11:02Z", ""⟩⟩ := by
  refine ⟨?_, ?_, rfl, rfl⟩
  · intro tok offMin dt u hstrict hshift
    rw [convert_eq_of_parse (strict_ne_empty hstrict) (strict_imp_strptime hstrict),
      hshift]
  · intro tok offMin dt hstrict hshift
    rw [convert_eq_of_parse (strict_ne_empty hstrict) (strict_imp_strptime hstrict),
      hshift]

/-- Claim C1, witness: the UTC+2 example round-trips through the general
statement. -/
theorem claim_C1_witness :
    convert_to_exec_credential 120 [("expiresOn", "2025-10-22 11:11:02.000000")] =
      .ok ⟨"ExecCredential", "client.authentication.k8s.io/v1beta1", ⟨false⟩,
           ⟨"2025-10-22T09:11:02Z", ""⟩⟩ :=
  claim_C1.1 [("expiresOn", "2025-10-22 11:11:02.000000")] 120
    ⟨2025, 10, 22, 11, 11, 2, 0⟩ ⟨2025, 10, 22, 9, 11, 2, 0⟩ rfl rfl

/-- Claim C1, counterexample to the unamended statement: the expiry
`0001-01-01 00:00:00.000000` is a non-empty string in the literal format,
yet at offset UTC+2 the conversion to UTC leaves the representable date
range, so the translator raises an error instead of producing the
formatted timestamp the claim promises. -/
theorem claim_C1_counterexample :
    strictFormatParse "0001-01-01 00:00:00.000000" = some ⟨1, 1, 1, 0, 0, 0, 0⟩ ∧
    convert_to_exec_credential 120 [("expiresOn", "0001-01-01 00:00:00.000000")] =
      .error .DateOutOfRangeError := ⟨rfl, rfl⟩

/-- Claim C3: every successfully translated credential carries the fixed
protocol envelope — `kind` is the literal `ExecCredential`, `apiVersion`
the literal `client.authentication.k8s.io/v1beta1` — and
`spec.interactive` is `false`, whatever the input held. -/
theorem claim_C3 : ∀ (offMin : Int) (tok : AzDict) (cred : ExecCredential),
    convert_to_exec_credential offMin tok = .ok cred →
    cred.kind = "ExecCredential" ∧
    cred.apiVersion = "client.authentication.k8s.io/v1beta1" ∧
    cred.spec.interactive = false := by
  intro offMin tok cred h
  simp only [convert_to_exec_credential] at h
  split at h
  · split at h
    · exact absurd h (by simp)
    · split at h
      · exact absurd h (by simp)
      · cases h
        exact ⟨rfl, rfl, rfl⟩
  · cases h
    exact ⟨rfl, rfl, rfl⟩

/-- Claim C3, witness: the empty token dictionary translates successfully
and its envelope is the fixed one. -/
theorem claim_C3_witness :
    (⟨"ExecCredential", "client.authentication.k8s.io/v1beta1", ⟨false⟩,
      ⟨"", ""⟩⟩ : ExecCredential).kind = "ExecCredential" ∧
    (⟨"ExecCredential", "client.authentication.k8s.io/v1beta1", ⟨false⟩,
      ⟨"", ""⟩⟩ : ExecCredential).apiVersion = "client.authentication.k8s.io/v1beta1" ∧
    (⟨"ExecCredential", "client.authentication.k8s.io/v1beta1", ⟨false⟩,
      ⟨"", ""⟩⟩ : ExecCredential).spec.interactive = false :=
  claim_C3 0 []
    ⟨"ExecCredential", "client.authentication.k8s.io/v1beta1", ⟨false⟩, ⟨"", ""⟩⟩
    rfl

/-- Claim C6 (amended): the translator fails with `TimestampFormatError`
on every non-empty `expiresOn` the code's actual pattern
`%Y-%m-%d %H:%M:%S.%f` rejects — a pattern wider than the literal template
`YYYY-MM-DD HH:MM:SS.ffffff`, since it also accepts unpadded one-digit
month/day/hour/minute/second fields, a run of whitespace as the separator
and one to five fractional digits; in particular an expiry missing the
fractional seconds fails as the claim states. -/
theorem claim_C6 :
    (∀ (offMin : Int) (tok : AzDict),
        dictGet tok "expiresOn" "" ≠ "" →
        strptime_naive (dictGet tok "expiresOn" "") = none →
        convert_to_exec_credential offMin tok =
          .error (.TimestampFormatError (dictGet tok "expiresOn" ""))) ∧
    convert_to_exec_credential 0 [("expiresOn", "2025-10-22 11:11:02")] =
      .error (.TimestampFormatError "2025-10-22 11:11:02") := by
  refine ⟨?_, rfl⟩
  intro offMin tok hne hp
  simp only [convert_to_exec_credential]
  rw [if_pos hne, hp]

/-- Claim C6, witness: an expiry missing its fractional seconds makes the
translator fail with the format error. -/
theorem claim_C6_witness :
    convert_to_exec_credential 0 [("expiresOn", "2025-10-22 11:11:02")] =
      .error (.TimestampFormatError "2025-10-22 11:11:02") :=
  claim_C6.1 0 [("expiresOn", "2025-10-22 11:11:02")] (by decide) rfl

/-- Claim C6, counterexample to the unamended statement: the expiry
`2025-10-22 11:11:02.5` does not match the literal template
`YYYY-MM-DD HH:MM:SS.ffffff` (one fractional digit instead of six), yet
the translator succeeds on it — Python's strptime right-pads the fraction
— instead of failing with `TimestampFormatError` as the claim demands. -/
theorem claim_C6_counterexample :
    strictFormatParse "2025-10-22 11:11:02.5" = none ∧
    convert_to_exec_credential 0 [("expiresOn", "2025-10-22 11:11:02.5")] =
      .ok ⟨"ExecCredential", "client.authentication.k8s.io/v1beta1", ⟨false⟩,
           ⟨"2025-10-22T11:11:02Z", ""⟩⟩ := ⟨rfl, rfl⟩

/-- Claim C7: a token whose `expiresOn` is absent or the empty string
translates successfully, and the emitted `status.expirationTimestamp` is
exactly the empty string. -/
theorem claim_C7 : ∀ (offMin : Int) (tok : AzDict),
    (List.find? (fun p => p.1 == "expiresOn") tok = none ∨
     dictGet tok "expiresOn" "" = "") →
    ∃ cred, convert_to_exec_credential offMin tok = .ok cred ∧
      cred.status.expirationTimestamp = "" := by
  intro offMin tok habs
  have hempty : dictGet tok "expiresOn" "" = "" := by
    rcases habs with hfind | hdone
    · simp only [dictGet, hfind]
    · exact hdone
  refine ⟨⟨"ExecCredential", "client.authentication.k8s.io/v1beta1",
           ⟨false⟩, ⟨"", dictGet tok "accessToken" ""⟩⟩, ?_, rfl⟩
  simp only [convert_to_exec_credential, hempty]
  rw [if_neg (by simp)]

/-- Claim C7, witness: the empty dictionary has no `expiresOn` and yields
an empty expiration timestamp. -/
theorem claim_C7_witness :
    ∃ cred, convert_to_exec_credential 0 [] = .ok cred ∧
      cred.status.expirationTimestamp = "" :=
  claim_C7 0 [] (Or.inl rfl)

/-- Claim C8: the emitted `status.token` is the input's `accessToken`
verbatim (defaulting to the empty string when the field is absent, which
is not fatal), and no other input field influences the output: two inputs
agreeing on `accessToken` and `expiresOn` translate identically. -/
theorem claim_C8 :
    (∀ (offMin : Int) (tok : AzDict) (cred : ExecCredential),
        convert_to_exec_credential offMin tok = .ok cred →
        cred.status.token = dictGet tok "accessToken" "") ∧
    (∀ (offMin : Int) (tok1 tok2 : AzDict),
        dictGet tok1 "accessToken" "" = dictGet tok2 "accessToken" "" →
        dictGet tok1 "expiresOn" "" = dictGet tok2 "expiresOn" "" →
        convert_to_exec_credential offMin tok1 =
          convert_to_exec_credential offMin tok2) := by
  constructor
  · intro offMin tok cred h
    simp only [convert_to_exec_credential] at h
    split at h
    · split at h
      · exact absurd h (by simp)
      · split at h
        · exact absurd h (by simp)
        · cases h
          rfl
    · cases h
      rfl
  · intro offMin tok1 tok2 hacc hexp
    simp only [convert_to_exec_credential, hacc, hexp]

/-- Claim C8, witness: two dictionaries differing in their auxiliary
fields but agreeing on `accessToken` (with `expiresOn` absent in both)
translate to the same credential. -/
theorem claim_C8_witness :
    convert_to_exec_credential 0 [("subscription", "x"), ("accessToken", "t")] =
      convert_to_exec_credential 0 [("accessToken", "t"), ("tenant", "y")] :=
  claim_C8.2 0 [("subscription", "x"), ("accessToken", "t")]
    [("accessToken", "t"), ("tenant", "y")] rfl rfl

section MainRunCases

variable {env_az : Option String} {sid : String} {res : Option String}
variable {offMin : Int} {run : List String → RunOutcome}
variable {parseJson : String → Except String AzDict}
variable {tok : AzDict} {pre : List String}

theorem main_run_ok_ok {cred : ExecCredential}
    (hg : get_azure_token env_az sid res run parseJson = (.ok tok, pre))
    (hc : convert_to_exec_credential offMin tok = .ok cred) :
    main_run env_az sid res offMin run parseJson =
      ⟨0, [json_dumps_exec_credential cred], pre⟩ := by
  simp only [main_run, hg, hc]

theorem main_run_ok_err {e : ConvertError}
    (hg : get_azure_token env_az sid res run parseJson = (.ok tok, pre))
    (hc : convert_to_exec_credential offMin tok = .error e) :
    main_run env_az sid res offMin run parseJson =
      ⟨1, [], pre ++ ["Unexpected error: " ++ convertErrorMsg e]⟩ := by
  simp only [main_run, hg, hc]

theorem main_run_cpe {se : String}
    (hg : get_azure_token env_az sid res run parseJson =
      (.error (.calledProcessError se), pre)) :
    main_run env_az sid res offMin run parseJson =
      ⟨1, [], pre ++ ["Failed to get access token from Azure CLI",
                      "Make sure you are logged in: az login"]⟩ := by
  simp only [main_run, hg]

theorem main_run_jde {m : String}
    (hg : get_azure_token env_az sid res run parseJson =
      (.error (.jsonDecodeError m), pre)) :
    main_run env_az sid res offMin run parseJson =
      ⟨1, [], pre ++ ["Unexpected error: " ++ m]⟩ := by
  simp only [main_run, hg]

theorem main_run_ose {m : String}
    (hg : get_azure_token env_az sid res run parseJson =
      (.error (.osError m), pre)) :
    main_run env_az sid res offMin run parseJson =
      ⟨1, [], pre ++ ["Unexpected error: " ++ m]⟩ := by
  simp only [main_run, hg]

end MainRunCases

/-- Claim C2: the orchestrator exits 0 exactly when a credential was
acquired, translated and emitted to standard output; every failure exits 1
with a diagnostic on standard error; no other exit code exists, and
nothing is written to standard output on any error path. -/
theorem claim_C2 :
    ∀ (env_az : Option String) (sid : String) (res : Option String)
      (offMin : Int) (run : List String → RunOutcome)
      (parseJson : String → Except String AzDict),
    ((main_run env_az sid res offMin run parseJson).exitCode = 0 ∨
     (main_run env_az sid res offMin run parseJson).exitCode = 1) ∧
    ((main_run env_az sid res offMin run parseJson).exitCode = 0 ↔
      ∃ tok cred,
        (get_azure_token env_az sid res run parseJson).1 = .ok tok ∧
        convert_to_exec_credential offMin tok = .ok cred ∧
        (main_run env_az sid res offMin run parseJson).stdoutLines =
          [json_dumps_exec_credential cred]) ∧
    ((main_run env_az sid res offMin run parseJson).exitCode = 1 →
      (main_run env_az sid res offMin run parseJson).stdoutLines = [] ∧
      (main_run env_az sid res offMin run parseJson).stderrLines ≠ []) := by
  intro env_az sid res offMin run parseJson
  rcases hg : get_azure_token env_az sid res run parseJson with ⟨er, pre⟩
  rcases er with e | tok
  · have hr : main_run env_az sid res offMin run parseJson =
        ⟨1, [], (main_run env_az sid res offMin run parseJson).stderrLines⟩ := by
      rcases e with se | m | m
      · rw [main_run_cpe hg]
      · rw [main_run_jde hg]
      · rw [main_run_ose hg]
    have hs : (main_run env_az sid res offMin run parseJson).stderrLines ≠ [] := by
      rcases e with se | m | m
      · rw [main_run_cpe hg]
        simp
      · rw [main_run_jde hg]
        simp
      · rw [main_run_ose hg]
        simp
    rw [hr]
    refine ⟨Or.inr rfl, ⟨?_, ?_⟩, fun _ => ⟨rfl, by rw [← hr]; exact hs⟩⟩
    · intro h
      exact absurd h (by simp)
    · rintro ⟨tok2, cred2, h1, h2, h3⟩
      exact absurd h1 (by simp)
  · rcases hc : convert_to_exec_credential offMin tok with e | cred
    · rw [main_run_ok_err hg hc]
      refine ⟨Or.inr rfl, ⟨?_, ?_⟩, fun _ => ⟨rfl, by simp⟩⟩
      · intro h
        exact absurd h (by simp)
      · rintro ⟨tok2, cred2, h1, h2, h3⟩
        have htok : tok = tok2 := by simpa using h1
        rw [← htok, hc] at h2
        exact absurd h2 (by simp)
    · rw [main_run_ok_ok hg hc]
      refine ⟨Or.inl rfl, ⟨fun _ => ⟨tok, cred, rfl, hc, rfl⟩, fun _ => rfl⟩,
        ?_⟩
      intro h
      exact absurd h (by simp)

/-- Claim C2, witness: with an oracle whose subprocess succeeds and whose
output decodes to a token dictionary, the orchestrator exits 0 and emits
the serialized credential. -/
theorem claim_C2_witness :
    ∃ tok cred,
      (get_azure_token none "sid" none (fun _ => .ran 0 "x" "")
        (fun _ => .ok [("accessToken", "abc123")])).1 = .ok tok ∧
      convert_to_exec_credential 0 tok = .ok cred ∧
      (main_run none "sid" none 0 (fun _ => .ran 0 "x" "")
        (fun _ => .ok [("accessToken", "abc123")])).stdoutLines =
        [json_dumps_exec_credential cred] :=
  ((claim_C2 none "sid" none 0 (fun _ => .ran 0 "x" "")
    (fun _ => .ok [("accessToken", "abc123")])).2.1).mp rfl

/-- Claim C4: a non-zero subprocess exit makes the acquirer fail with the
command-failed error carrying the captured stderr, after printing it; the
orchestrator then exits 1, writes nothing to standard output, and the
standard-error diagnostic tells the user to log in again. -/
theorem claim_C4 :
    ∀ (env_az : Option String) (sid : String) (res : Option String)
      (offMin : Int) (run : List String → RunOutcome)
      (parseJson : String → Except String AzDict) (rc : Int) (out err : String),
    run (build_az_cmd env_az sid res) = .ran rc out err → rc ≠ 0 →
    get_azure_token env_az sid res run parseJson =
      (.error (.calledProcessError err), ["Error running az command: " ++ err]) ∧
    (main_run env_az sid res offMin run parseJson).exitCode = 1 ∧
    (main_run env_az sid res offMin run parseJson).stdoutLines = [] ∧
    "Make sure you are logged in: az login" ∈
      (main_run env_az sid res offMin run parseJson).stderrLines := by
  intro env_az sid res offMin run parseJson rc out err hrun hrc
  have hget : get_azure_token env_az sid res run parseJson =
      (.error (.calledProcessError err), ["Error running az command: " ++ err]) := by
    simp only [get_azure_token, hrun]
    rw [if_pos hrc]
  refine ⟨hget, ?_, ?_, ?_⟩ <;> simp [main_run, hget]

/-- Claim C4, witness: a subprocess exiting 1 with stderr `boom` produces
the command-failed error and the re-authentication diagnostic. -/
theorem claim_C4_witness :
    get_azure_token none "sid" none (fun _ => .ran 1 "" "boom")
      (fun _ => .ok []) =
      (.error (.calledProcessError "boom"), ["Error running az command: boom"]) ∧
    (main_run none "sid" none 0 (fun _ => .ran 1 "" "boom")
      (fun _ => .ok [])).exitCode = 1 ∧
    (main_run none "sid" none 0 (fun _ => .ran 1 "" "boom")
      (fun _ => .ok [])).stdoutLines = [] ∧
    "Make sure you are logged in: az login" ∈
      (main_run none "sid" none 0 (fun _ => .ran 1 "" "boom")
        (fun _ => .ok [])).stderrLines :=
  claim_C4 none "sid" none 0 (fun _ => .ran 1 "" "boom") (fun _ => .ok [])
    1 "" "boom" rfl (by decide)

/-- Claim C5: a zero subprocess exit whose captured standard output fails
to decode makes the acquirer fail with the malformed-response error
carrying the parse-error message, and the orchestrator exits 1 with an
empty standard output. -/
theorem claim_C5 :
    ∀ (env_az : Option String) (sid : String) (res : Option String)
      (offMin : Int) (run : List String → RunOutcome)
      (parseJson : String → Except String AzDict) (out err msg : String),
    run (build_az_cmd env_az sid res) = .ran 0 out err →
    parseJson out = .error msg →
    get_azure_token env_az sid res run parseJson =
      (.error (.jsonDecodeError msg), ["Error parsing az command output: " ++ msg]) ∧
    (main_run env_az sid res offMin run parseJson).exitCode = 1 ∧
    (main_run env_az sid res offMin run parseJson).stdoutLines = [] ∧
    (main_run env_az sid res offMin run parseJson).stderrLines ≠ [] := by
  intro env_az sid res offMin run parseJson out err msg hrun hparse
  have hget : get_azure_token env_az sid res run parseJson =
      (.error (.jsonDecodeError msg), ["Error parsing az command output: " ++ msg]) := by
    simp only [get_azure_token, hrun, hparse]
    rw [if_neg (by simp)]
  refine ⟨hget, ?_, ?_, ?_⟩ <;> simp [main_run, hget]

/-- Claim C5, witness: output that is not decodable yields the
malformed-response failure and exit code 1. -/
theorem claim_C5_witness :
    get_azure_token none "sid" none (fun _ => .ran 0 "not json" "")
      (fun _ => .error "Expecting value: line 1 column 1 (char 0)") =
      (.error (.jsonDecodeError "Expecting value: line 1 column 1 (char 0)"),
       ["Error parsing az command output: Expecting value: line 1 column 1 (char 0)"]) ∧
    (main_run none "sid" none 0 (fun _ => .ran 0 "not json" "")
      (fun _ => .error "Expecting value: line 1 column 1 (char 0)")).exitCode = 1 ∧
    (main_run none "sid" none 0 (fun _ => .ran 0 "not json" "")
      (fun _ => .error "Expecting value: line 1 column 1 (char 0)")).stdoutLines = [] ∧
    (main_run none "sid" none 0 (fun _ => .ran 0 "not json" "")
      (fun _ => .error "Expecting value: line 1 column 1 (char 0)")).stderrLines ≠ [] :=
  claim_C5 none "sid" none 0 (fun _ => .ran 0 "not json" "")
    (fun _ => .error "Expecting value: line 1 column 1 (char 0)")
    "not json" "" "Expecting value: line 1 column 1 (char 0)" rfl rfl

/-- Claim C9: the acquirer invokes the command resolved from the
environment override (defaulting to the bare command name) with exactly
`account get-access-token --scope <serverId>/.default`, appending
`--resource <resource>` only when one was supplied; the default invocation
builds the scope `6dae42f8-4368-4678-94ff-3960e28e3630/.default` with no
resource argument; and the acquirer consults the oracle at no other
command line. -/
theorem claim_C9 :
    (∀ (env_az : Option String) (sid : String),
        build_az_cmd env_az sid none =
          [resolve_az_cmd env_az, "account", "get-access-token", "--scope",
           sid ++ "/.default"]) ∧
    (∀ (env_az : Option String) (sid r : String), r ≠ "" →
        build_az_cmd env_az sid (some r) =
          [resolve_az_cmd env_az, "account", "get-access-token", "--scope",
           sid ++ "/.default", "--resource", r]) ∧
    resolve_az_cmd none = "az" ∧
    (∀ p, resolve_az_cmd (some p) = p) ∧
    build_az_cmd none DEFAULT_SERVER_ID none =
      ["az", "account", "get-access-token", "--scope",
       "6dae42f8-4368-4678-94ff-3960e28e3630/.default"] ∧
    (∀ (env_az : Option String) (sid : String) (res : Option String)
        (parseJson : String → Except String AzDict)
        (run1 run2 : List String → RunOutcome),
        run1 (build_az_cmd env_az sid res) = run2 (build_az_cmd env_az sid res) →
        get_azure_token env_az sid res run1 parseJson =
          get_azure_token env_az sid res run2 parseJson) := by
  refine ⟨fun _ _ => rfl, ?_, rfl, fun _ => rfl, rfl, ?_⟩
  · intro env_az sid r hr
    simp only [build_az_cmd]
    rw [if_pos hr]
    rfl
  · intro env_az sid res parseJson run1 run2 hagree
    simp only [get_azure_token, hagree]

/-- Claim C9, witness: a non-empty supplied resource is appended after the
default argument vector. -/
theorem claim_C9_witness :
    build_az_cmd none "abc" (some "myres") =
      ["az", "account", "get-access-token", "--scope", "abc/.default",
       "--resource", "myres"] :=
  claim_C9.2.1 none "abc" "myres" (by decide)

/-- Claim C10: supplying `--resource` with the empty string behaves
exactly as if no resource were supplied — the truthiness guard drops the
pair from the command line — at the command, acquirer and orchestrator
levels alike. -/
theorem claim_C10 :
    ∀ (env_az : Option String) (sid : String) (offMin : Int)
      (run : List String → RunOutcome)
      (parseJson : String → Except String AzDict),
    build_az_cmd env_az sid (some "") = build_az_cmd env_az sid none ∧
    get_azure_token env_az sid (some "") run parseJson =
      get_azure_token env_az sid none run parseJson ∧
    main_run env_az sid (some "") offMin run parseJson =
      main_run env_az sid none offMin run parseJson := by
  intro env_az sid offMin run parseJson
  have hcmd : build_az_cmd env_az sid (some "") = build_az_cmd env_az sid none := by
    simp [build_az_cmd]
  have hget : get_azure_token env_az sid (some "") run parseJson =
      get_azure_token env_az sid none run parseJson := by
    simp only [get_azure_token, hcmd]
  refine ⟨hcmd, hget, ?_⟩
  simp only [main_run, hget]

end AzKubelogin
